import Mathlib

/-!
Verification of the formalization backend of `laisario/devs-impacto`.

The development shallowly embeds the pure parts of
`backend/app/modules/formalization` (diagnosis, rules, repository sync)
and the dispatch logic of `backend/app/modules/ai_chat/service.py`.
Python dictionaries with optional keys are embedded as structures of
`Option`-valued fields (`none` = key absent), `dict.get(k, d)` becomes
`Option.getD`, machine integers are `Int`/`Nat`, and raising code is
embedded as functions returning the untouched state together with an
`Except` value.
-/

namespace DevsImpacto

/-! ## producer_utils.py -/

/-- `normalize_producer_type` from
`backend/app/modules/formalization/producer_utils.py`:
`if not producer_type: return ""` then `producer_type.lower().strip()`. -/
def normalize_producer_type (producer_type : Option String) : String :=
  match producer_type with
  | none => ""
  | some s => if s = "" then "" else s.toLower.trim

/-- `INDIVIDUAL_PRODUCER_TYPES` membership test,
`is_individual_producer` in `producer_utils.py`. -/
def is_individual_producer (producer_type : Option String) : Bool :=
  let normalized := normalize_producer_type producer_type
  normalized = "individual" || normalized = "produtor individual"

/-- `FORMAL_PRODUCER_TYPES` membership test,
`is_formal_producer` in `producer_utils.py`. -/
def is_formal_producer (producer_type : Option String) : Bool :=
  let normalized := normalize_producer_type producer_type
  normalized = "formal (cnpj)" || normalized = "formal" ||
    normalized = "grupo formal (cnpj)"

/-! ## diagnosis.py -/

/-- The `responses` dictionary passed to `calculate_eligibility`
(`backend/app/modules/formalization/diagnosis.py`), restricted to the
keys that function reads.  `none` models an absent key, so
`responses.get("has_dap_caf", False)` becomes `(has_dap_caf).getD false`
and `responses.get("producer_type")` becomes the `Option String` field
itself. -/
structure Responses where
  has_dap_caf : Option Bool := none
  has_cnpj : Option Bool := none
  producer_type : Option String := none
  has_previous_sales : Option Bool := none
  has_bank_account : Option Bool := none
  has_address_proof : Option Bool := none
deriving Repr, DecidableEq

/-- Return value of `calculate_eligibility`. -/
structure Diagnosis where
  is_eligible : Bool
  eligibility_level : String
  score : Int
  requirements_met : List String
  requirements_missing : List String
  recommendations : List String
deriving Repr, DecidableEq

/-- Body of `calculate_eligibility` (`diagnosis.py` lines 50-139) as a
function of the six flags extracted at lines 43-48 and 65.
The list appends happen in the same order as the Python `append` calls,
and the score additions mirror lines 91-107; the final score is clamped
with `min(100, max(0, score))`. -/
def eligibility_core (has_dap_caf has_cnpj is_formal has_previous_public_sales
    has_bank_account has_address_proof : Bool) : Diagnosis :=
  let requirements_met : List String :=
    (if has_dap_caf then ["DAP ou CAF"] else []) ++
    (if is_formal && has_cnpj then ["CNPJ (para grupo formal)"] else []) ++
    (if has_bank_account then ["Conta bancária"] else []) ++
    (if has_address_proof then ["Comprovante de endereço"] else [])
  let requirements_missing : List String :=
    (if has_dap_caf then [] else ["DAP ou CAF"]) ++
    (if is_formal && !has_cnpj then ["CNPJ (para grupo formal)"] else []) ++
    (if has_bank_account then [] else ["Conta bancária"]) ++
    (if has_address_proof then [] else ["Comprovante de endereço"])
  let recommendations0 : List String :=
    (if has_dap_caf then [] else
      ["Obtenha sua DAP (Declaração de Aptidão ao Pronaf) na Emater ou órgão similar"]) ++
    (if is_formal && !has_cnpj then
      ["Registre CNPJ para sua cooperativa ou associação"] else []) ++
    (if has_bank_account then [] else
      ["Abra uma conta bancária para receber pagamentos"]) ++
    (if has_address_proof then [] else
      ["Tenha um comprovante de endereço atualizado"])
  let score : Int := 30 +
    (if has_dap_caf then 30 else 0) +
    (if is_formal && has_cnpj then 20 else if !is_formal then 20 else 0) +
    (if has_bank_account then 10 else 0) +
    (if has_address_proof then 10 else 0) +
    (if has_previous_public_sales then 5 else 0)
  let essential_ok := has_dap_caf && (!is_formal || has_cnpj)
  let eligibility_level : String :=
    if essential_ok && decide (score ≥ 70) then "eligible"
    else if essential_ok && decide (score ≥ 50) then "partially_eligible"
    else "not_eligible"
  let is_eligible : Bool := essential_ok && decide (score ≥ 70)
  let recommendations : List String :=
    recommendations0 ++
    (if !has_previous_public_sales && is_eligible then
      ["Considere participar de pequenas chamadas para ganhar experiência"] else [])
  { is_eligible := is_eligible
    eligibility_level := eligibility_level
    score := min 100 (max 0 score)
    requirements_met := requirements_met
    requirements_missing := requirements_missing
    recommendations := recommendations }

/-- `calculate_eligibility` from `diagnosis.py`, lines 15-139: extract
the answers with `dict.get` defaults (lines 43-48), compute `is_formal`
(line 65) and run the diagnosis body `eligibility_core`. -/
def calculate_eligibility (responses : Responses) : Diagnosis :=
  eligibility_core (responses.has_dap_caf.getD false)
    (responses.has_cnpj.getD false)
    (is_formal_producer responses.producer_type)
    (responses.has_previous_sales.getD false)
    (responses.has_bank_account.getD false)
    (responses.has_address_proof.getD false)

/-- The `essential_ok` flag computed at `diagnosis.py` line 114. -/
def essential_ok (responses : Responses) : Bool :=
  responses.has_dap_caf.getD false &&
    (!is_formal_producer responses.producer_type ||
      responses.has_cnpj.getD false)

/-! ## rules.py -/

/-- A raw `producer_profile` document/dictionary as read by
`compute_required_tasks` and by the profile-override block of
`get_or_calculate_status`.  `none` models an absent key. -/
structure ProducerProfileDoc where
  has_cpf : Option Bool := none
  has_family_farmer_registration : Option Bool := none
  has_dap_caf : Option Bool := none
  has_bank_account : Option Bool := none
  wants_to_sell_to_school : Option Bool := none
  has_address_proof : Option Bool := none
  has_cnpj : Option Bool := none
  has_previous_sales : Option Bool := none
  producer_type : Option String := none
deriving Repr, DecidableEq

/-- `compute_required_tasks` from
`backend/app/modules/formalization/rules.py`, lines 9-71: flags are read
with `dict.get` defaults (`has_cpf` defaults to `True`, the rest to
`False`), `has_dap_caf` serves as fallback for
`has_family_farmer_registration`, and the task codes are appended in
rule order. -/
def compute_required_tasks (producer_profile : ProducerProfileDoc) : List String :=
  let has_cpf := producer_profile.has_cpf.getD true
  let hffr0 := producer_profile.has_family_farmer_registration.getD false
  let has_dap_caf := producer_profile.has_dap_caf.getD false
  let has_bank_account := producer_profile.has_bank_account.getD false
  let wants_to_sell_to_school := producer_profile.wants_to_sell_to_school.getD false
  let has_family_farmer_registration := if !hffr0 then has_dap_caf else hffr0
  let has_address_proof := producer_profile.has_address_proof.getD false
  (if !has_cpf then ["HAS_CPF"] else []) ++
  (if !has_family_farmer_registration then ["HAS_FAMILY_FARMER_REGISTRATION"] else []) ++
  (if !has_bank_account then ["HAS_BANK_ACCOUNT"] else []) ++
  (if !has_address_proof then ["HAS_ADDRESS_PROOF"] else []) ++
  (if wants_to_sell_to_school then
    ["SALES_PROJECT_READY", "PUBLIC_CALL_SUBMISSION_READY"] else [])

/-! ## repo.py: user task rows, catalog and `sync_user_tasks`

`backend/app/modules/formalization/repo.py` stores one MongoDB document
per `(user, task_code)` in `formalization_tasks_user`.  All queries are
filtered by one `user_id`, so the embedding keeps the rows of a single
user.  Mongo `_id` values are modelled by a `rowId : Nat` drawn from a
`nextId` counter, `utc_now()` timestamps by a `Nat` parameter `now`.
-/

/-- One document of `formalization_tasks_user` (the fields written by
`sync_user_tasks` and `update_task_status`). -/
structure UserTaskRow where
  rowId : Nat
  task_code : String
  status : String
  blocking : Bool
  requirement_id : Option String
  created_at : Nat
  updated_at : Nat
deriving Repr, DecidableEq

/-- One document of `formalization_tasks_catalog`
(`FormalizationTaskCatalog`, fields populated by
`seeds.load_tasks_from_csv`). -/
structure CatalogTask where
  code : String
  title : String := ""
  description : String := ""
  why : String := ""
  blocking : Bool := false
  estimated_time_days : Nat := 0
deriving Repr, DecidableEq

/-- The per-user slice of the `formalization_tasks_user` collection:
rows in insertion order plus the id counter used by `insert_one`. -/
structure TasksState where
  rows : List UserTaskRow
  nextId : Nat
deriving Repr, DecidableEq

/-- Read-only context of `sync_user_tasks`: `catalog` models the
dictionary returned by `get_all_catalog_tasks` (keyed by task code) and
`reqIdFor` models `_get_requirement_id_for_task_code`, which only reads
the onboarding question catalog and a static mapping and is therefore a
fixed function of the task code. -/
structure SyncEnv where
  catalog : String → Option CatalogTask
  reqIdFor : String → Option String

/-- Python truthiness of an optional string (`if requirement_id:`):
`None` and `""` are falsy. -/
def truthy : Option String → Bool
  | none => false
  | some s => s ≠ ""

/-- The per-row body of the `for existing_task in existing_tasks` loop
of `sync_user_tasks` (`repo.py` lines 157-197).  Each iteration touches
only the row it looks at (updates filter on the row `_id`), so the loop
is a `map` of this function. -/
def sync_process_existing (env : SyncEnv) (now : Nat)
    (required_set : List String) (t : UserTaskRow) : UserTaskRow :=
  if t.task_code ∈ required_set then
    if t.status = "done" then
      if truthy t.requirement_id then t
      else
        let rid := env.reqIdFor t.task_code
        if truthy rid then { t with requirement_id := rid, updated_at := now }
        else t
    else if t.status = "skipped" then
      let rid := env.reqIdFor t.task_code
      if truthy rid then
        { t with status := "pending", requirement_id := rid, updated_at := now }
      else { t with status := "pending", updated_at := now }
    else t
  else
    if t.status = "done" then t
    else { t with status := "skipped", updated_at := now }

/-- The `for task_code in required_task_codes` creation loop of
`sync_user_tasks` (`repo.py` lines 200-224).  `existing_codes` is the
snapshot `existing_task_codes` taken before the loop.  Returns the new
state together with the list of task codes for which the
`"not found in catalog"` warning was logged. -/
def sync_create_new (env : SyncEnv) (now : Nat) (existing_codes : List String) :
    TasksState → List String → TasksState × List String
  | st, [] => (st, [])
  | st, task_code :: rest =>
    if task_code ∈ existing_codes then
      sync_create_new env now existing_codes st rest
    else
      match env.catalog task_code with
      | none =>
        let step := sync_create_new env now existing_codes st rest
        (step.1, task_code :: step.2)
      | some catalog_task =>
        let row : UserTaskRow :=
          { rowId := st.nextId
            task_code := task_code
            status := "pending"
            blocking := catalog_task.blocking
            requirement_id := env.reqIdFor task_code
            created_at := now
            updated_at := now }
        sync_create_new env now existing_codes
          { rows := st.rows ++ [row], nextId := st.nextId + 1 } rest

/-- `sync_user_tasks` (`repo.py` lines 126-224): process the snapshot
of existing rows, then create rows for required codes that had no row,
skipping codes unknown to the catalog.  Membership in the Python
`required_set = set(required_task_codes)` is list membership.  Returns
the final state and the logged catalog warnings. -/
def sync_user_tasks (env : SyncEnv) (now : Nat) (st : TasksState)
    (required_task_codes : List String) : TasksState × List String :=
  let existing_task_codes := st.rows.map (fun t => t.task_code)
  let rows1 := st.rows.map (sync_process_existing env now required_task_codes)
  sync_create_new env now existing_task_codes
    { rows := rows1, nextId := st.nextId } required_task_codes

/-! ## service.py: `FormalizationService`

State touched by the service: the raw `producer_profiles` document, the
onboarding answers (keyed by question id; only the keys the service
reads or writes are modelled), the user task rows and the cached
`formalization_status` document.
-/

/-- Onboarding answers of one user, restricted to the question ids the
formalization service reads (`get_all_answers` keys feeding
`calculate_eligibility`) or writes
(`_update_profile_from_task_completion`).  `none` = unanswered. -/
structure OnboardingAnswers where
  has_dap_caf : Option Bool := none
  has_cnpj : Option Bool := none
  producer_type : Option String := none
  has_previous_sales : Option Bool := none
  has_bank_account : Option Bool := none
  has_address_proof : Option Bool := none
  has_cpf : Option Bool := none
deriving Repr, DecidableEq

/-- The cached `formalization_status` document
(`FormalizationStatusInDB` without ids). -/
structure CachedStatus where
  is_eligible : Bool
  eligibility_level : String
  score : Int
  requirements_met : List String
  requirements_missing : List String
  recommendations : List String
  diagnosed_at : Nat
deriving Repr, DecidableEq

/-- The response of `get_or_calculate_status`
(`FormalizationStatusResponse`). -/
structure StatusResponse where
  is_eligible : Bool
  eligibility_level : String
  score : Int
  requirements_met : List String
  requirements_missing : List String
  recommendations : List String
  diagnosed_at : Nat
deriving Repr, DecidableEq

/-- Per-user state seen by `FormalizationService`. -/
structure ServiceState where
  profile : Option ProducerProfileDoc
  answers : OnboardingAnswers
  tasks : TasksState
  statusCache : Option CachedStatus
deriving Repr, DecidableEq

/-- The `responses` dictionary built from the onboarding answers
(`service.py` lines 62-67), restricted to the keys
`calculate_eligibility` reads. -/
def responses_from_answers (a : OnboardingAnswers) : Responses :=
  { has_dap_caf := a.has_dap_caf
    has_cnpj := a.has_cnpj
    producer_type := a.producer_type
    has_previous_sales := a.has_previous_sales
    has_bank_account := a.has_bank_account
    has_address_proof := a.has_address_proof }

/-- The profile-override block of `get_or_calculate_status`
(`service.py` lines 71-101): each flag present on the raw profile
document overrides the onboarding answer, a truthy `producer_type`
overrides the answer, and a true `has_family_farmer_registration` also
forces `has_dap_caf` (lines 83-86, applied after the `has_dap_caf`
override of lines 80-81).  The `has_cpf` override writes a key
`calculate_eligibility` never reads and is dropped. -/
def apply_profile_overrides (responses : Responses) (p : ProducerProfileDoc) :
    Responses :=
  let r1 := match p.producer_type with
    | some pt => if pt ≠ "" then { responses with producer_type := some pt } else responses
    | none => responses
  let r2 := match p.has_dap_caf with
    | some b => { r1 with has_dap_caf := some b }
    | none => r1
  let r3 := match p.has_family_farmer_registration with
    | some b => if b then { r2 with has_dap_caf := some true } else r2
    | none => r2
  let r4 := match p.has_bank_account with
    | some b => { r3 with has_bank_account := some b }
    | none => r3
  let r5 := match p.has_cnpj with
    | some b => { r4 with has_cnpj := some b }
    | none => r4
  let r6 := match p.has_address_proof with
    | some b => { r5 with has_address_proof := some b }
    | none => r5
  match p.has_previous_sales with
    | some b => { r6 with has_previous_sales := some b }
    | none => r6

/-- Python `set(l1) != set(l2)` comparison used by
`_has_diagnosis_changed`, as a boolean double inclusion. -/
def list_set_eq (l1 l2 : List String) : Bool :=
  l1.all (fun x => decide (x ∈ l2)) && l2.all (fun x => decide (x ∈ l1))

/-- `_has_diagnosis_changed` (`service.py` lines 506-513). -/
def has_diagnosis_changed (cached : CachedStatus) (d : Diagnosis) : Bool :=
  cached.is_eligible != d.is_eligible || cached.score != d.score ||
    !list_set_eq cached.requirements_met d.requirements_met ||
    !list_set_eq cached.requirements_missing d.requirements_missing

/-- `regenerate_tasks` reads the profile through
`ProducerService.get_profile_by_user`, which validates the raw document
into the pydantic model `ProducerProfileInDB`.  That model declares
none of the `has_*` / `wants_to_sell_to_school` flag fields and does
not allow extra fields, so `model_dump(exclude_none=True)` keeps (of
the keys `compute_required_tasks` reads) only `producer_type`; every
flag key is absent in the dumped dictionary. -/
def producer_profile_model_dump (p : ProducerProfileDoc) : ProducerProfileDoc :=
  { producer_type := p.producer_type }

/-- `regenerate_tasks` (`service.py` lines 217-240): no profile means
no resync (a warning is logged); otherwise the required codes are
computed from the dumped profile and the rows are synced.  Only the
task rows are written. -/
def regenerate_tasks (env : SyncEnv) (now : Nat)
    (profile : Option ProducerProfileDoc) (tasks : TasksState) : TasksState :=
  match profile with
  | none => tasks
  | some p =>
    (sync_user_tasks env now tasks
      (compute_required_tasks (producer_profile_model_dump p))).1

/-- The progress computation of `get_or_calculate_status`
(`service.py` lines 141-148).  Python computes
`int((completed_tasks / total_tasks) * 100)` with IEEE doubles and
truncates; the embedding uses the exact rational truncation
`(completed * 100) / total` in natural-number division. -/
def progress_score (rows : List UserTaskRow) : Int :=
  let total_tasks := rows.length
  let completed_tasks := (rows.filter (fun t => t.status = "done")).length
  if 0 < total_tasks then ((completed_tasks * 100) / total_tasks : Nat) else 0

/-- `get_or_calculate_status` (`service.py` lines 42-166): read the
cache, build responses from answers plus profile overrides, run the
diagnosis, refresh the cache when absent or changed, resync the tasks
(`regenerate_tasks` — the only state besides the cache this call
writes), and return the diagnosis fields with the progress-based score
and the cached diagnosis date. -/
def get_or_calculate_status (env : SyncEnv) (now : Nat) (st : ServiceState) :
    ServiceState × StatusResponse :=
  let cached := st.statusCache
  let responses0 := responses_from_answers st.answers
  let responses := match st.profile with
    | some p => apply_profile_overrides responses0 p
    | none => responses0
  let diagnosis := calculate_eligibility responses
  let cacheNeedsUpdate := match cached with
    | none => true
    | some cdoc => has_diagnosis_changed cdoc diagnosis
  let newCache := if cacheNeedsUpdate then
      some { is_eligible := diagnosis.is_eligible
             eligibility_level := diagnosis.eligibility_level
             score := diagnosis.score
             requirements_met := diagnosis.requirements_met
             requirements_missing := diagnosis.requirements_missing
             recommendations := diagnosis.recommendations
             diagnosed_at := now }
    else st.statusCache
  let tasks2 := regenerate_tasks env now st.profile st.tasks
  let score := progress_score tasks2.rows
  let diagnosed_at := match cached with
    | some cdoc => cdoc.diagnosed_at
    | none => now
  ({ st with statusCache := newCache, tasks := tasks2 },
   { is_eligible := diagnosis.is_eligible
     eligibility_level := diagnosis.eligibility_level
     score := score
     requirements_met := diagnosis.requirements_met
     requirements_missing := diagnosis.requirements_missing
     recommendations := diagnosis.recommendations
     diagnosed_at := diagnosed_at })

/-- `FormalizationRepository.update_task_status` (`repo.py` lines
226-257): `find_one_and_update` on the first row matching the task
code, setting `status` and `updated_at`, returning the updated row. -/
def update_first_row (now : Nat) (task_code status : String) :
    List UserTaskRow → List UserTaskRow × Option UserTaskRow
  | [] => ([], none)
  | t :: ts =>
    if t.task_code = task_code then
      ({ t with status := status, updated_at := now } :: ts,
        some { t with status := status, updated_at := now })
    else
      let step := update_first_row now task_code status ts
      (t :: step.1, step.2)

/-- The status values accepted by `update_task_status`
(`service.py` line 259). -/
def VALID_TASK_STATUSES : List String := ["pending", "done", "skipped"]

/-- `_update_profile_from_task_completion` (`service.py` lines
278-345): for the four mapped codes, set the corresponding profile
flags (only when a profile document exists — `upsert=False`) and
upsert the mirrored onboarding answer. -/
def update_profile_from_task_completion (st : ServiceState)
    (task_code : String) : ServiceState :=
  if task_code = "HAS_CPF" then
    let st1 := match st.profile with
      | some p => { st with profile := some { p with has_cpf := some true } }
      | none => st
    { st1 with answers := { st1.answers with has_cpf := some true } }
  else if task_code = "HAS_FAMILY_FARMER_REGISTRATION" then
    let st1 := match st.profile with
      | some p => { st with profile := some { p with has_family_farmer_registration := some true, has_dap_caf := some true } }
      | none => st
    { st1 with answers := { st1.answers with has_dap_caf := some true } }
  else if task_code = "HAS_BANK_ACCOUNT" then
    let st1 := match st.profile with
      | some p => { st with profile := some { p with has_bank_account := some true } }
      | none => st
    { st1 with answers := { st1.answers with has_bank_account := some true } }
  else if task_code = "HAS_ADDRESS_PROOF" then
    let st1 := match st.profile with
      | some p => { st with profile := some { p with has_address_proof := some true } }
      | none => st
    { st1 with answers := { st1.answers with has_address_proof := some true } }
  else st

/-- `FormalizationService.update_task_status` (`service.py` lines
242-276).  An invalid status raises `ValueError` before any state is
touched, which the embedding renders by returning the untouched state
with an `Except.error` (message condensed to its prefix); otherwise the
row is updated, a completed task writes back profile flags and answers
and triggers a resync, and the cached status is deleted. -/
def update_task_status (env : SyncEnv) (now : Nat) (st : ServiceState)
    (task_code status : String) :
    ServiceState × Except String (Option UserTaskRow) :=
  if status ∉ VALID_TASK_STATUSES then
    (st, Except.error ("Invalid status: " ++ status))
  else
    let repoStep := update_first_row now task_code status st.tasks.rows
    let st1 := { st with tasks := { st.tasks with rows := repoStep.1 } }
    let st2 :=
      if status = "done" && repoStep.2.isSome then
        let stP := update_profile_from_task_completion st1 task_code
        { stP with tasks := regenerate_tasks env now stP.profile stP.tasks }
      else st1
    ({ st2 with statusCache := none }, Except.ok repoStep.2)

/-! ## ai_chat/service.py: specialized chat responses

`generate_specialized_response` reads the stored conversation state,
fetches the (resynced) task list, detects an intent by keyword, and
dispatches.  The LLM/RAG/audio calls only produce response *text* and
never influence the control flow or the suggested actions, so they are
not modelled.  A conversation is modelled by its stored `chat_state`
and `current_task_code` next to the service state of its user.
-/

/-- The `ChatState` enum of `ai_chat/schemas.py` (values used by the
dispatch). -/
inductive ChatState where
  | idle
  | explaining_task
  | waiting_confirmation
  | task_completed
  | error
deriving Repr, DecidableEq

/-- ASCII lowering of one character (Python `str.lower()` restricted
to ASCII; the keyword lists below are already lowercase, accented
characters included, so only ASCII letters of the user text matter). -/
def asciiLowerChar (c : Char) : Char :=
  if 65 ≤ c.toNat ∧ c.toNat ≤ 90 then Char.ofNat (c.toNat + 32) else c

/-- ASCII `str.lower()` on a string. -/
def asciiLower (s : String) : String := String.mk (s.data.map asciiLowerChar)

/-- `charsPrefix sub l`: `sub` is a prefix of `l`. -/
def charsPrefix : List Char → List Char → Bool
  | [], _ => true
  | _ :: _, [] => false
  | a :: as, b :: bs => a == b && charsPrefix as bs

/-- `charsSeg sub l`: `sub` occurs contiguously in `l`. -/
def charsSeg : List Char → List Char → Bool
  | sub, [] => sub.isEmpty
  | sub, l@(_ :: tl) => charsPrefix sub l || charsSeg sub tl

/-- Python substring containment `sub in s`. -/
def strContains (s sub : String) : Bool := charsSeg sub.toList s.toList

/-- Keyword list for the `ask_what_missing` intent
(`service.py` line 619). -/
def ASK_WHAT_MISSING_PHRASES : List String :=
  ["o que falta", "o que preciso", "próxima tarefa", "o que falta fazer"]

/-- Keyword list for the `confirm_task` intent (`service.py` line 621). -/
def CONFIRM_PHRASES : List String :=
  ["sim", "já", "completei", "concluí", "feito", "pronto"]

/-- Keyword list of `_handle_task_confirmation` (`service.py` line 453,
with its duplicated `"sim"`). -/
def CONFIRMATIONS : List String :=
  ["sim", "sim", "já", "completei", "concluí", "feito", "pronto"]

/-- `_detect_intent` (`service.py` lines 615-624).  The caller passes
`user_text.lower()` and the function lowers again; the ASCII lowering
modelled by `asciiLower` is idempotent, so one application suffices. -/
def detect_intent (text : String) : String :=
  let text_lower := asciiLower text
  if ASK_WHAT_MISSING_PHRASES.any (fun w => strContains text_lower w) then
    "ask_what_missing"
  else if CONFIRM_PHRASES.any (fun w => strContains text_lower w) then
    "confirm_task"
  else "general"

/-- A task as returned by `FormalizationService.get_tasks`: a user row
joined with its catalog entry. -/
structure TaskView where
  task_code : String
  status : String
  blocking : Bool
  requirement_id : Option String
deriving Repr, DecidableEq

/-- `FormalizationService.get_tasks` (`service.py` lines 168-215):
resync, then join the user rows with the catalog in row order,
dropping (with a warning) rows whose code has no catalog entry. -/
def get_tasks (env : SyncEnv) (now : Nat) (st : ServiceState) :
    ServiceState × List TaskView :=
  let tasks2 := regenerate_tasks env now st.profile st.tasks
  let views := tasks2.rows.filterMap (fun r =>
    match env.catalog r.task_code with
    | none => none
    | some _ => some { task_code := r.task_code, status := r.status, blocking := r.blocking, requirement_id := r.requirement_id })
  ({ st with tasks := tasks2 }, views)

/-- A suggested action of a chat response (`SuggestedAction`). -/
structure SuggestedAction where
  type : String
  task_code : String
deriving Repr, DecidableEq

/-- The parts of `ChatMessageResponseNew` relevant to the dispatch:
message type, suggested actions and the declared conversation state. -/
structure ChatResponse where
  message_type : String
  suggested_actions : List SuggestedAction
  response_task_code : Option String
  response_chat_state : ChatState
deriving Repr, DecidableEq

/-- A conversation with the state of its user. -/
structure ChatSysState where
  service : ServiceState
  chat_state : ChatState
  current_task_code : Option String
deriving Repr, DecidableEq

/-- Step 5 of `generate_specialized_response` (lines 299-302): the
first blocking pending task, else the first pending task. -/
def priority_task_of (tasks : List TaskView) : Option TaskView :=
  let pending_tasks := tasks.filter (fun t => t.status = "pending")
  let blocking_tasks := pending_tasks.filter (fun t => t.blocking)
  match blocking_tasks with
  | b :: _ => some b
  | [] =>
    match pending_tasks with
    | p :: _ => some p
    | [] => none

/-- `_explain_task` (`service.py` lines 356-440): without a task, an
informational response and no stored-state update; with a task, a
`mark_task_done` suggestion for it and the conversation stored as
`EXPLAINING_TASK` on that task. -/
def explain_task (s : ChatSysState) (service1 : ServiceState)
    (task : Option TaskView) : ChatSysState × ChatResponse :=
  match task with
  | none =>
    ({ s with service := service1 },
     { message_type := "info", suggested_actions := [],
       response_task_code := none, response_chat_state := ChatState.idle })
  | some task =>
    ({ service := service1, chat_state := ChatState.explaining_task,
       current_task_code := some task.task_code },
     { message_type := "info",
       suggested_actions := [{ type := "mark_task_done", task_code := task.task_code }],
       response_task_code := some task.task_code,
       response_chat_state := ChatState.explaining_task })

/-- `_handle_task_confirmation` (`service.py` lines 442-491): if the
raw text contains a confirmation keyword, suggest `mark_task_done` for
the *stored* task code (no status check); the conversation returns to
`IDLE` either way. -/
def handle_task_confirmation (service1 : ServiceState) (task_code : String)
    (user_text : String) : ChatSysState × ChatResponse :=
  let is_confirmed := CONFIRMATIONS.any (fun conf => strContains (asciiLower user_text) conf)
  let suggested_actions := if is_confirmed then
      [{ type := "mark_task_done", task_code := task_code } ]
    else ([] : List SuggestedAction)
  ({ service := service1, chat_state := ChatState.idle, current_task_code := none },
   { message_type := if is_confirmed then "action" else "info",
     suggested_actions := suggested_actions, response_task_code := none,
     response_chat_state := ChatState.idle })

/-- `generate_specialized_response` (`service.py` lines 250-354),
restricted to text input: fetch the tasks (resyncing them), pick the
priority pending task, detect the intent, dispatch.
`_continue_explanation` and `_answer_general_question` emit no
suggested actions and leave the stored conversation state as it was. -/
def chat_step (env : SyncEnv) (now : Nat) (s : ChatSysState)
    (user_text : String) : ChatSysState × ChatResponse :=
  let stepTasks := get_tasks env now s.service
  let service1 := stepTasks.1
  let tasks := stepTasks.2
  let priority_task := priority_task_of tasks
  let intent := detect_intent (asciiLower user_text)
  if intent = "ask_what_missing" ∨
      (intent = "general" ∧ truthy s.current_task_code = false ∧
        priority_task.isSome) then
    explain_task s service1 priority_task
  else if intent = "confirm_task" ∧ truthy s.current_task_code = true then
    handle_task_confirmation service1 (s.current_task_code.getD "") user_text
  else if truthy s.current_task_code = true ∧
      s.chat_state = ChatState.explaining_task then
    ({ s with service := service1 },
     { message_type := "info", suggested_actions := [],
       response_task_code := s.current_task_code,
       response_chat_state := ChatState.explaining_task })
  else
    ({ s with service := service1 },
     { message_type := "info", suggested_actions := [],
       response_task_code := none, response_chat_state := ChatState.idle })

/-- Transitions of the chat system: an incoming chat message, or a
task-status mutation through `update_task_status` (e.g. the user
tapping a suggested action between messages). -/
inductive ChatStep (env : SyncEnv) : ChatSysState → ChatSysState → Prop where
  | message (s : ChatSysState) (now : Nat) (text : String) (s' : ChatSysState)
      (h : s' = (chat_step env now s text).1) : ChatStep env s s'
  | mark_task (s : ChatSysState) (now : Nat) (task_code status : String)
      (s' : ChatSysState)
      (h : s' = { s with
        service := (update_task_status env now s.service task_code status).1 }) :
      ChatStep env s s'

/-- A fresh conversation (`get_or_create_conversation` stores no
`chat_state`, which reads back as `IDLE` with no current task). -/
def chatInit (service0 : ServiceState) : ChatSysState :=
  { service := service0, chat_state := ChatState.idle, current_task_code := none }

/-- Conversation states reachable from a fresh conversation. -/
def ChatReachable (env : SyncEnv) (s0 s : ChatSysState) : Prop :=
  Relation.ReflTransGen (ChatStep env) s0 s

/-! ## Claims about the pure diagnosis and rules functions -/

/-- C2: for every input mapping, `calculate_eligibility` never returns
eligibility level `"partially_eligible"`: the level is `"eligible"`
exactly when `essential_ok` holds (and then the clamped score is at
least 80) and `"not_eligible"` otherwise, and `is_eligible` equals
`essential_ok` — independent of bank account, address proof and
previous sales. -/
theorem calculate_eligibility_no_partial (r : Responses) :
    (calculate_eligibility r).eligibility_level ≠ "partially_eligible" ∧
    (calculate_eligibility r).eligibility_level =
      cond (essential_ok r) "eligible" "not_eligible" ∧
    (calculate_eligibility r).is_eligible = essential_ok r ∧
    (essential_ok r = true → 80 ≤ (calculate_eligibility r).score) := by
  unfold calculate_eligibility essential_ok
  generalize r.has_dap_caf.getD false = d
  generalize r.has_cnpj.getD false = c
  generalize r.has_previous_sales.getD false = p
  generalize r.has_bank_account.getD false = b
  generalize r.has_address_proof.getD false = a
  generalize is_formal_producer r.producer_type = f
  revert d c p b a f
  decide

/-- Witness for `calculate_eligibility_no_partial` at a concrete
profile with DAP/CAF and no producer type (hence not formal), where
`essential_ok` holds. -/
theorem calculate_eligibility_no_partial_witness :
    (calculate_eligibility { has_dap_caf := some true }).eligibility_level ≠
        "partially_eligible" ∧
    (calculate_eligibility { has_dap_caf := some true }).eligibility_level =
      cond (essential_ok { has_dap_caf := some true }) "eligible"
        "not_eligible" ∧
    (calculate_eligibility { has_dap_caf := some true }).is_eligible =
      essential_ok { has_dap_caf := some true } ∧
    (essential_ok { has_dap_caf := some true } = true →
      80 ≤ (calculate_eligibility { has_dap_caf := some true }).score) :=
  calculate_eligibility_no_partial { has_dap_caf := some true }

/-- C6: `calculate_eligibility` is a total function (it is a Lean
`def`, hence deterministic and defined on every input), its returned
score lies in `[0, 100]`, and `is_eligible` is `true` exactly when the
eligibility level is `"eligible"`. -/
theorem calculate_eligibility_total_score_range (r : Responses) :
    0 ≤ (calculate_eligibility r).score ∧
    (calculate_eligibility r).score ≤ 100 ∧
    ((calculate_eligibility r).is_eligible = true ↔
      (calculate_eligibility r).eligibility_level = "eligible") := by
  unfold calculate_eligibility
  generalize r.has_dap_caf.getD false = d
  generalize r.has_cnpj.getD false = c
  generalize r.has_previous_sales.getD false = p
  generalize r.has_bank_account.getD false = b
  generalize r.has_address_proof.getD false = a
  generalize is_formal_producer r.producer_type = f
  revert d c p b a f
  decide

/-- C7: when the producer type is not formal, the CNPJ requirement
never appears in `requirements_missing`, and the 20 CNPJ points are
awarded unconditionally: the score is `min 100 (30 + dap + 20 + bank +
addr + sales)` regardless of `has_cnpj` (the unconditional `+ 20` is
the `elif not is_formal` branch of `diagnosis.py` line 99-100). -/
theorem calculate_eligibility_not_formal_cnpj (r : Responses)
    (h : is_formal_producer r.producer_type = false) :
    "CNPJ (para grupo formal)" ∉ (calculate_eligibility r).requirements_missing ∧
    (calculate_eligibility r).score =
      min 100 (30 + cond (r.has_dap_caf.getD false) 30 0 + 20 +
        cond (r.has_bank_account.getD false) 10 0 +
        cond (r.has_address_proof.getD false) 10 0 +
        cond (r.has_previous_sales.getD false) 5 0) := by
  unfold calculate_eligibility
  rw [h]
  generalize r.has_dap_caf.getD false = d
  generalize r.has_cnpj.getD false = c
  generalize r.has_previous_sales.getD false = p
  generalize r.has_bank_account.getD false = b
  generalize r.has_address_proof.getD false = a
  revert d c p b a
  decide

/-- Witness for `calculate_eligibility_not_formal_cnpj` at the empty
responses dictionary (producer type absent, hence not formal). -/
theorem calculate_eligibility_not_formal_cnpj_witness :
    is_formal_producer (Responses.producer_type {}) = false ∧
    ("CNPJ (para grupo formal)" ∉
        (calculate_eligibility {}).requirements_missing ∧
    (calculate_eligibility {}).score =
      min 100 (30 + cond ((Responses.has_dap_caf {}).getD false) 30 0 + 20 +
        cond ((Responses.has_bank_account {}).getD false) 10 0 +
        cond ((Responses.has_address_proof {}).getD false) 10 0 +
        cond ((Responses.has_previous_sales {}).getD false) 5 0)) :=
  ⟨by decide, calculate_eligibility_not_formal_cnpj {} (by decide)⟩

/-! ### Shared lemmas about `sync_user_tasks` -/

/-- Processing an existing row never changes its id, code, blocking
flag or creation time. -/
theorem sync_process_existing_fixed (env : SyncEnv) (now : Nat)
    (req : List String) (t : UserTaskRow) :
    (sync_process_existing env now req t).rowId = t.rowId ∧
    (sync_process_existing env now req t).task_code = t.task_code ∧
    (sync_process_existing env now req t).blocking = t.blocking ∧
    (sync_process_existing env now req t).created_at = t.created_at := by
  simp only [sync_process_existing]
  split_ifs <;> simp

/-- Processing preserves the task code (projection form). -/
theorem sync_process_existing_code (env : SyncEnv) (now : Nat)
    (req : List String) (t : UserTaskRow) :
    (sync_process_existing env now req t).task_code = t.task_code :=
  (sync_process_existing_fixed env now req t).2.1

/-- Processing depends on the required list only through membership of
the row's task code. -/
theorem sync_process_existing_congr (env : SyncEnv) (now : Nat)
    (req req' : List String) (t : UserTaskRow)
    (h : t.task_code ∈ req ↔ t.task_code ∈ req') :
    sync_process_existing env now req t = sync_process_existing env now req' t := by
  unfold sync_process_existing
  by_cases h1 : t.task_code ∈ req
  · rw [if_pos h1, if_pos (h.mp h1)]
  · rw [if_neg h1, if_neg (fun hh => h1 (h.mpr hh))]

/-- The creation loop only appends rows; the appended rows are fresh
`"pending"` rows whose codes come from the required list and are known
to the catalog. -/
theorem sync_create_new_rows_shape (env : SyncEnv) (now : Nat)
    (codes : List String) (req : List String) (st : TasksState) :
    ∃ extra, (sync_create_new env now codes st req).1.rows = st.rows ++ extra ∧
      ∀ t ∈ extra, t.status = "pending" ∧ t.task_code ∈ req ∧
        (env.catalog t.task_code).isSome ∧ t.task_code ∉ codes := by
  induction req generalizing st with
  | nil => exact ⟨[], by simp [sync_create_new], by simp⟩
  | cons c rest ih =>
    unfold sync_create_new
    split_ifs with hc
    · obtain ⟨extra, he, hp⟩ := ih st
      exact ⟨extra, he, fun t ht => by
        obtain ⟨h1, h2, h3, h4⟩ := hp t ht
        exact ⟨h1, List.mem_cons_of_mem _ h2, h3, h4⟩⟩
    · cases hcat : env.catalog c with
      | none =>
        simp only
        obtain ⟨extra, he, hp⟩ := ih st
        exact ⟨extra, he, fun t ht => by
          obtain ⟨h1, h2, h3, h4⟩ := hp t ht
          exact ⟨h1, List.mem_cons_of_mem _ h2, h3, h4⟩⟩
      | some cat =>
        simp only
        obtain ⟨extra, he, hp⟩ :=
          ih { rows := st.rows ++
                [{ rowId := st.nextId, task_code := c, status := "pending",
                   blocking := cat.blocking, requirement_id := env.reqIdFor c,
                   created_at := now, updated_at := now }],
               nextId := st.nextId + 1 }
        refine ⟨_ :: extra, by simpa using he, fun t ht => ?_⟩
        rcases List.mem_cons.mp ht with h | h
        · subst h
          exact ⟨rfl, List.mem_cons_self _ _, by simp [hcat], hc⟩
        · obtain ⟨h1, h2, h3, h4⟩ := hp t h
          exact ⟨h1, List.mem_cons_of_mem _ h2, h3, h4⟩

/-- Outcome of processing a required `"done"` row that already has a
truthy requirement id: unchanged. -/
theorem sync_process_existing_done_keep (env : SyncEnv) (now : Nat)
    (req : List String) (t : UserTaskRow) (h1 : t.task_code ∈ req)
    (hd : t.status = "done") (h2 : truthy t.requirement_id = true) :
    sync_process_existing env now req t = t := by
  simp only [sync_process_existing, if_pos h1, if_pos hd, if_pos h2]

/-- Outcome of processing a required `"done"` row with a falsy
requirement id when the lookup yields a truthy id: backfill. -/
theorem sync_process_existing_done_backfill (env : SyncEnv) (now : Nat)
    (req : List String) (t : UserTaskRow) (h1 : t.task_code ∈ req)
    (hd : t.status = "done") (h2 : ¬ truthy t.requirement_id = true)
    (h3 : truthy (env.reqIdFor t.task_code) = true) :
    sync_process_existing env now req t =
      { t with requirement_id := env.reqIdFor t.task_code, updated_at := now } := by
  simp only [sync_process_existing, if_pos h1, if_pos hd, if_neg h2, if_pos h3]

/-- Outcome of processing a required `"done"` row with a falsy
requirement id when the lookup also fails: unchanged. -/
theorem sync_process_existing_done_nofill (env : SyncEnv) (now : Nat)
    (req : List String) (t : UserTaskRow) (h1 : t.task_code ∈ req)
    (hd : t.status = "done") (h2 : ¬ truthy t.requirement_id = true)
    (h3 : ¬ truthy (env.reqIdFor t.task_code) = true) :
    sync_process_existing env now req t = t := by
  simp only [sync_process_existing, if_pos h1, if_pos hd, if_neg h2, if_neg h3]

/-- Outcome of processing a required `"skipped"` row: reactivation. -/
theorem sync_process_existing_skipped (env : SyncEnv) (now : Nat)
    (req : List String) (t : UserTaskRow) (h1 : t.task_code ∈ req)
    (hd : ¬ t.status = "done") (hs : t.status = "skipped") :
    sync_process_existing env now req t =
      (if truthy (env.reqIdFor t.task_code) = true then
        { t with status := "pending", requirement_id := env.reqIdFor t.task_code, updated_at := now }
      else { t with status := "pending", updated_at := now }) := by
  simp only [sync_process_existing, if_pos h1, if_neg hd, if_pos hs]

/-- Outcome of processing a required row that is neither `"done"` nor
`"skipped"`: unchanged. -/
theorem sync_process_existing_active (env : SyncEnv) (now : Nat)
    (req : List String) (t : UserTaskRow) (h1 : t.task_code ∈ req)
    (hd : ¬ t.status = "done") (hs : ¬ t.status = "skipped") :
    sync_process_existing env now req t = t := by
  simp only [sync_process_existing, if_pos h1, if_neg hd, if_neg hs]

/-- Outcome of processing a non-required `"done"` row: unchanged. -/
theorem sync_process_existing_notreq_done (env : SyncEnv) (now : Nat)
    (req : List String) (t : UserTaskRow) (h1 : ¬ t.task_code ∈ req)
    (hd : t.status = "done") :
    sync_process_existing env now req t = t := by
  simp only [sync_process_existing, if_neg h1, if_pos hd]

/-- Outcome of processing a non-required row that is not `"done"`:
marked `"skipped"`. -/
theorem sync_process_existing_notreq (env : SyncEnv) (now : Nat)
    (req : List String) (t : UserTaskRow) (h1 : ¬ t.task_code ∈ req)
    (hd : ¬ t.status = "done") :
    sync_process_existing env now req t =
      { t with status := "skipped", updated_at := now } := by
  simp only [sync_process_existing, if_neg h1, if_neg hd]

/-- Row state with the `updated_at` timestamp erased, used to compare
states up to timestamps. -/
def eraseUpdatedAt (t : UserTaskRow) : UserTaskRow := { t with updated_at := 0 }

/-- Processing a row twice (with possibly different timestamps) yields
the first result, except that a non-required non-done row gets its
`updated_at` rewritten again. -/
theorem sync_process_existing_twice (env : SyncEnv) (now1 now2 : Nat)
    (req : List String) (t : UserTaskRow) :
    sync_process_existing env now2 req (sync_process_existing env now1 req t) =
        sync_process_existing env now1 req t ∨
      (sync_process_existing env now2 req (sync_process_existing env now1 req t) =
        { sync_process_existing env now1 req t with updated_at := now2 } ∧
       (sync_process_existing env now1 req t).updated_at = now1) := by
  by_cases h1 : t.task_code ∈ req
  · by_cases hd : t.status = "done"
    · by_cases h2 : truthy t.requirement_id = true
      · rw [sync_process_existing_done_keep env now1 req t h1 hd h2]
        exact Or.inl (sync_process_existing_done_keep env now2 req t h1 hd h2)
      · by_cases h3 : truthy (env.reqIdFor t.task_code) = true
        · rw [sync_process_existing_done_backfill env now1 req t h1 hd h2 h3]
          exact Or.inl (sync_process_existing_done_keep env now2 req _ h1 hd h3)
        · rw [sync_process_existing_done_nofill env now1 req t h1 hd h2 h3]
          exact Or.inl (sync_process_existing_done_nofill env now2 req t h1 hd h2 h3)
    · by_cases hs : t.status = "skipped"
      · rw [sync_process_existing_skipped env now1 req t h1 hd hs]
        by_cases h3 : truthy (env.reqIdFor t.task_code) = true
        · rw [if_pos h3]
          exact Or.inl (sync_process_existing_active env now2 req _ h1
            (by simp) (by simp))
        · rw [if_neg h3]
          exact Or.inl (sync_process_existing_active env now2 req _ h1
            (by simp) (by simp))
      · rw [sync_process_existing_active env now1 req t h1 hd hs]
        exact Or.inl (sync_process_existing_active env now2 req t h1 hd hs)
  · by_cases hd : t.status = "done"
    · rw [sync_process_existing_notreq_done env now1 req t h1 hd]
      exact Or.inl (sync_process_existing_notreq_done env now2 req t h1 hd)
    · rw [sync_process_existing_notreq env now1 req t h1 hd]
      refine Or.inr ⟨?_, rfl⟩
      rw [sync_process_existing_notreq env now2 req
        { t with status := "skipped", updated_at := now1 } h1 (by simp)]

/-- A row the creation loop just inserted (`"pending"`, required code)
is left unchanged by a later processing pass over it. -/
theorem sync_process_existing_fresh (env : SyncEnv) (now : Nat)
    (req : List String) (t : UserTaskRow) (h1 : t.task_code ∈ req)
    (hp : t.status = "pending") :
    sync_process_existing env now req t = t :=
  sync_process_existing_active env now req t h1 (by simp [hp]) (by simp [hp])

/-- The creation loop is a no-op on the state when every required code
is already present in the snapshot or unknown to the catalog. -/
theorem sync_create_new_noop (env : SyncEnv) (now : Nat)
    (codes : List String) :
    ∀ (req : List String) (st : TasksState),
      (∀ code ∈ req, code ∈ codes ∨ env.catalog code = none) →
      (sync_create_new env now codes st req).1 = st := by
  intro req
  induction req with
  | nil => intro st _; rfl
  | cons d rest ih =>
    intro st h
    simp only [sync_create_new]
    by_cases hdc : d ∈ codes
    · rw [if_pos hdc]
      exact ih st (fun x hx => h x (List.mem_cons_of_mem _ hx))
    · rw [if_neg hdc]
      rcases h d (List.mem_cons_self _ _) with hd | hd
      · exact absurd hd hdc
      · rw [hd]
        exact ih st (fun x hx => h x (List.mem_cons_of_mem _ hx))

/-- A required code absent from the snapshot but present in the
catalog ends up among the row codes after the creation loop. -/
theorem sync_create_new_mem_code (env : SyncEnv) (now : Nat)
    (codes : List String) (code : String)
    (hcodes : code ∉ codes) (hcat : (env.catalog code).isSome) :
    ∀ (req : List String) (st : TasksState), code ∈ req →
      code ∈ (sync_create_new env now codes st req).1.rows.map
        (fun t => t.task_code) := by
  intro req
  induction req with
  | nil => intro st h; cases h
  | cons d rest ih =>
    intro st hmem
    simp only [sync_create_new]
    rcases List.mem_cons.mp hmem with he | hrest
    · subst he
      rw [if_neg hcodes]
      cases hc : env.catalog code with
      | none => rw [hc] at hcat; cases hcat
      | some cat =>
        obtain ⟨extra, hrows, -⟩ := sync_create_new_rows_shape env now codes rest
          { rows := st.rows ++ [{ rowId := st.nextId, task_code := code, status := "pending", blocking := cat.blocking, requirement_id := env.reqIdFor code, created_at := now, updated_at := now }], nextId := st.nextId + 1 }
        simp only
        rw [hrows]
        simp
    · by_cases hd : d ∈ codes
      · rw [if_pos hd]
        exact ih st hrest
      · rw [if_neg hd]
        cases hc : env.catalog d with
        | none => exact ih st hrest
        | some cat => exact ih _ hrest

/-- After a sync, every required code is either present among the row
codes or unknown to the catalog. -/
theorem sync_user_tasks_covers (env : SyncEnv) (now : Nat)
    (st : TasksState) (req : List String) :
    ∀ code ∈ req,
      code ∈ (sync_user_tasks env now st req).1.rows.map (fun t => t.task_code) ∨
      env.catalog code = none := by
  intro code hc
  by_cases hcat : (env.catalog code).isSome
  · left
    by_cases hex : code ∈ st.rows.map (fun t => t.task_code)
    · unfold sync_user_tasks
      obtain ⟨extra, he, -⟩ := sync_create_new_rows_shape env now
        (st.rows.map (fun t => t.task_code)) req
        { rows := st.rows.map (sync_process_existing env now req), nextId := st.nextId }
      rw [he, List.map_append]
      apply List.mem_append_left
      have hcodes : (st.rows.map (sync_process_existing env now req)).map
          (fun t => t.task_code) = st.rows.map (fun t => t.task_code) := by
        rw [List.map_map]
        exact List.map_congr_left
          (fun t _ => sync_process_existing_code env now req t)
      rw [hcodes]
      exact hex
    · unfold sync_user_tasks
      exact sync_create_new_mem_code env now _ code hex hcat req _ hc
  · right
    exact Option.not_isSome_iff_eq_none.mp hcat

/-- C4: completed tasks are sticky under synchronization.  For every
`"done"` row, after any `sync_user_tasks` call a row with the same id,
code, blocking flag and creation time is still present with status
`"done"`; if the code is no longer required the row is bit-for-bit
unchanged, and in every case the only other change the sync may make is
backfilling a missing `requirement_id` (together with `updated_at`). -/
theorem sync_user_tasks_done_sticky (env : SyncEnv) (now : Nat)
    (st : TasksState) (req : List String) (t : UserTaskRow)
    (hmem : t ∈ st.rows) (hdone : t.status = "done") :
    ∃ t' ∈ (sync_user_tasks env now st req).1.rows,
      t'.rowId = t.rowId ∧ t'.task_code = t.task_code ∧ t'.status = "done" ∧
      t'.created_at = t.created_at ∧ t'.blocking = t.blocking ∧
      (t.task_code ∉ req → t' = t) ∧
      (t' = t ∨ (truthy t.requirement_id = false ∧
        ∃ rid, truthy rid = true ∧
          t' = { t with requirement_id := rid, updated_at := now })) := by
  refine ⟨sync_process_existing env now req t, ?_, ?_⟩
  · unfold sync_user_tasks
    obtain ⟨extra, he, -⟩ := sync_create_new_rows_shape env now
      (st.rows.map (fun t => t.task_code)) req
      { rows := st.rows.map (sync_process_existing env now req), nextId := st.nextId }
    rw [he]
    exact List.mem_append_left _ (List.mem_map_of_mem _ hmem)
  · simp only [sync_process_existing]
    by_cases h1 : t.task_code ∈ req
    · rw [if_pos h1, if_pos hdone]
      by_cases h2 : truthy t.requirement_id = true
      · rw [if_pos h2]
        exact ⟨rfl, rfl, hdone, rfl, rfl, fun hc => absurd h1 hc, Or.inl rfl⟩
      · rw [if_neg h2]
        by_cases h3 : truthy (env.reqIdFor t.task_code) = true
        · rw [if_pos h3]
          exact ⟨rfl, rfl, hdone, rfl, rfl, fun hc => absurd h1 hc,
            Or.inr ⟨by simpa using h2, env.reqIdFor t.task_code, h3, rfl⟩⟩
        · rw [if_neg h3]
          exact ⟨rfl, rfl, hdone, rfl, rfl, fun hc => absurd h1 hc, Or.inl rfl⟩
    · rw [if_neg h1, if_pos hdone]
      exact ⟨rfl, rfl, hdone, rfl, rfl, fun _ => rfl, Or.inl rfl⟩

/-- An environment whose catalog is empty and whose requirement-id
lookup always fails, for concrete evaluations. -/
def emptyCatalogEnv : SyncEnv :=
  { catalog := fun _ => none, reqIdFor := fun _ => none }

/-- A concrete completed user-task row, for concrete evaluations. -/
def doneRowHasCpf : UserTaskRow :=
  { rowId := 0, task_code := "HAS_CPF", status := "done", blocking := true,
    requirement_id := some "has_cpf", created_at := 1, updated_at := 2 }

/-- A one-row task state holding `doneRowHasCpf`. -/
def doneStateHasCpf : TasksState := { rows := [doneRowHasCpf], nextId := 1 }

/-- Witness for `sync_user_tasks_done_sticky`: a single `"done"` row
whose code is not required survives a sync untouched. -/
theorem sync_user_tasks_done_sticky_witness :
    ∃ t' ∈ (sync_user_tasks emptyCatalogEnv 5 doneStateHasCpf []).1.rows,
      t'.rowId = doneRowHasCpf.rowId ∧
      t'.task_code = doneRowHasCpf.task_code ∧ t'.status = "done" ∧
      t'.created_at = doneRowHasCpf.created_at ∧
      t'.blocking = doneRowHasCpf.blocking ∧
      (doneRowHasCpf.task_code ∉ ([] : List String) → t' = doneRowHasCpf) ∧
      (t' = doneRowHasCpf ∨ (truthy doneRowHasCpf.requirement_id = false ∧
        ∃ rid, truthy rid = true ∧
          t' = { doneRowHasCpf with requirement_id := rid, updated_at := 5 })) :=
  sync_user_tasks_done_sticky emptyCatalogEnv 5 doneStateHasCpf []
    doneRowHasCpf (by simp [doneStateHasCpf]) rfl

/-- Dropping a required code that is neither in the snapshot nor in
the catalog does not change the state produced by the creation loop,
and the code is among the logged warnings. -/
theorem sync_create_new_unknown_middle (env : SyncEnv) (now : Nat)
    (codes : List String) (c : String) (hcat : env.catalog c = none)
    (hc : c ∉ codes) :
    ∀ (l1 l2 : List String) (st : TasksState),
      (sync_create_new env now codes st (l1 ++ c :: l2)).1 =
        (sync_create_new env now codes st (l1 ++ l2)).1 ∧
      c ∈ (sync_create_new env now codes st (l1 ++ c :: l2)).2 := by
  intro l1
  induction l1 with
  | nil =>
    intro l2 st
    simp only [List.nil_append, sync_create_new]
    rw [if_neg hc, hcat]
    exact ⟨rfl, List.mem_cons_self _ _⟩
  | cons d rest ih =>
    intro l2 st
    simp only [List.cons_append, sync_create_new]
    by_cases hd : d ∈ codes
    · rw [if_pos hd, if_pos hd]
      exact ih l2 st
    · rw [if_neg hd, if_neg hd]
      cases hdc : env.catalog d with
      | none =>
        exact ⟨(ih l2 st).1, List.mem_cons_of_mem _ (ih l2 st).2⟩
      | some cat =>
        exact ih l2 _

/-- A pending row with a code outside the required set, used to
exhibit the timestamp rewrite of a repeated sync. -/
def oldPendingRow : UserTaskRow :=
  { rowId := 0, task_code := "OLD", status := "pending", blocking := false,
    requirement_id := none, created_at := 0, updated_at := 0 }

/-- One-row state holding `oldPendingRow`. -/
def oldPendingState : TasksState := { rows := [oldPendingRow], nextId := 1 }

/-- C5 counterexample: `sync_user_tasks` is not literally idempotent.
Starting from a pending row whose code is not required, the first call
(at time 1) marks it `"skipped"`; the second call with the same
required list (at time 2, i.e. immediately after) rewrites the row
again, changing its stored `updated_at` from 1 to 2, so the second
call does have an additional side effect on the stored state. -/
theorem sync_user_tasks_not_idempotent :
    (sync_user_tasks emptyCatalogEnv 2
        (sync_user_tasks emptyCatalogEnv 1 oldPendingState []).1 []).1 ≠
      (sync_user_tasks emptyCatalogEnv 1 oldPendingState []).1 ∧
    (sync_user_tasks emptyCatalogEnv 1 oldPendingState []).1.rows.map
        (fun t => t.updated_at) = [1] ∧
    (sync_user_tasks emptyCatalogEnv 2
        (sync_user_tasks emptyCatalogEnv 1 oldPendingState []).1 []).1.rows.map
        (fun t => t.updated_at) = [2] := by
  decide

/-- C5 (amended): `sync_user_tasks` is idempotent up to `updated_at`
timestamps.  A second call with the same required list inserts no rows
(same `nextId`), changes no row apart from possibly rewriting its
`updated_at`, and at an unchanged clock the second call is the exact
identity on the state. -/
theorem sync_user_tasks_idempotent_mod_updated_at (env : SyncEnv)
    (now1 now2 : Nat) (st : TasksState) (req : List String) :
    (sync_user_tasks env now2 (sync_user_tasks env now1 st req).1 req).1.nextId =
      (sync_user_tasks env now1 st req).1.nextId ∧
    (sync_user_tasks env now2 (sync_user_tasks env now1 st req).1 req).1.rows.map
        eraseUpdatedAt =
      (sync_user_tasks env now1 st req).1.rows.map eraseUpdatedAt ∧
    (sync_user_tasks env now1 (sync_user_tasks env now1 st req).1 req).1 =
      (sync_user_tasks env now1 st req).1 := by
  set st1 := (sync_user_tasks env now1 st req).1 with hst1
  have hcover : ∀ code ∈ req,
      code ∈ st1.rows.map (fun t => t.task_code) ∨ env.catalog code = none :=
    sync_user_tasks_covers env now1 st req
  have hshape : ∀ now', (sync_user_tasks env now' st1 req).1 =
      { rows := st1.rows.map (sync_process_existing env now' req),
        nextId := st1.nextId } := by
    intro now'
    unfold sync_user_tasks
    exact sync_create_new_noop env now' _ req _ hcover
  obtain ⟨extra, hrows1, hex⟩ := sync_create_new_rows_shape env now1
    (st.rows.map (fun t => t.task_code)) req
    { rows := st.rows.map (sync_process_existing env now1 req), nextId := st.nextId }
  have hst1rows : st1.rows =
      st.rows.map (sync_process_existing env now1 req) ++ extra := by
    rw [hst1]
    unfold sync_user_tasks
    exact hrows1
  have key : ∀ x ∈ st1.rows,
      eraseUpdatedAt (sync_process_existing env now2 req x) = eraseUpdatedAt x := by
    intro x hx
    rw [hst1rows] at hx
    rcases List.mem_append.mp hx with hx | hx
    · obtain ⟨t, ht, rfl⟩ := List.mem_map.mp hx
      rcases sync_process_existing_twice env now1 now2 req t with h | ⟨h, -⟩
      · rw [h]
      · rw [h]
        rfl
    · obtain ⟨hp, hq, -, -⟩ := hex x hx
      rw [sync_process_existing_fresh env now2 req x hq hp]
  have key1 : ∀ x ∈ st1.rows, sync_process_existing env now1 req x = x := by
    intro x hx
    rw [hst1rows] at hx
    rcases List.mem_append.mp hx with hx | hx
    · obtain ⟨t, ht, rfl⟩ := List.mem_map.mp hx
      rcases sync_process_existing_twice env now1 now1 req t with h | ⟨h, h2⟩
      · exact h
      · rw [h]
        have hy : ∀ (y : UserTaskRow), y.updated_at = now1 →
            ({ y with updated_at := now1 } : UserTaskRow) = y := by
          intro y hyy
          rw [← hyy]
        exact hy _ h2
    · obtain ⟨hp, hq, -, -⟩ := hex x hx
      exact sync_process_existing_fresh env now1 req x hq hp
  refine ⟨?_, ?_, ?_⟩
  · rw [hshape now2]
  · rw [hshape now2]
    dsimp only
    rw [List.map_map]
    exact List.map_congr_left (fun x hx => key x hx)
  · rw [hshape now1]
    have hmapid : st1.rows.map (sync_process_existing env now1 req) = st1.rows :=
      calc st1.rows.map (sync_process_existing env now1 req)
          = st1.rows.map (fun x => x) := List.map_congr_left key1
        _ = st1.rows := List.map_id _
    rw [hmapid]

/-- C9: sync is total on unknown task codes.  A required code `c` that
has no catalog entry and no existing row leads to a logged warning
(the second component of `sync_user_tasks`), creates no row, and the
resulting state is exactly the state produced by the same call without
`c` — the remaining codes are processed unchanged.  (Totality itself is
structural: `sync_user_tasks` is a Lean function, mirroring the Python
`continue` that never raises.) -/
theorem sync_user_tasks_unknown_code (env : SyncEnv) (now : Nat)
    (st : TasksState) (req1 req2 : List String) (c : String)
    (hcat : env.catalog c = none)
    (hrow : c ∉ st.rows.map (fun t => t.task_code)) :
    (sync_user_tasks env now st (req1 ++ c :: req2)).1 =
      (sync_user_tasks env now st (req1 ++ req2)).1 ∧
    c ∉ (sync_user_tasks env now st (req1 ++ c :: req2)).1.rows.map
      (fun t => t.task_code) ∧
    c ∈ (sync_user_tasks env now st (req1 ++ c :: req2)).2 := by
  have hmapeq : st.rows.map (sync_process_existing env now (req1 ++ c :: req2)) =
      st.rows.map (sync_process_existing env now (req1 ++ req2)) := by
    apply List.map_congr_left
    intro t ht
    apply sync_process_existing_congr
    have hne : t.task_code ≠ c := fun h => hrow (h ▸ List.mem_map_of_mem _ ht)
    simp [List.mem_append, List.mem_cons, hne]
  constructor
  · unfold sync_user_tasks
    rw [hmapeq]
    exact (sync_create_new_unknown_middle env now _ c hcat hrow req1 req2 _).1
  constructor
  · unfold sync_user_tasks
    obtain ⟨extra, he, hp⟩ := sync_create_new_rows_shape env now
      (st.rows.map (fun t => t.task_code)) (req1 ++ c :: req2)
      { rows := st.rows.map (sync_process_existing env now (req1 ++ c :: req2)),
        nextId := st.nextId }
    rw [he, List.map_append]
    intro hmem
    rcases List.mem_append.mp hmem with hmem | hmem
    · obtain ⟨x, hx, hxc⟩ := List.mem_map.mp hmem
      obtain ⟨t, ht, rfl⟩ := List.mem_map.mp hx
      exact hrow (by
        rw [← hxc, sync_process_existing_code]
        exact List.mem_map_of_mem _ ht)
    · obtain ⟨x, hx, hxc⟩ := List.mem_map.mp hmem
      obtain ⟨-, -, hsome, -⟩ := hp x hx
      rw [hxc, hcat] at hsome
      cases hsome
  · unfold sync_user_tasks
    exact (sync_create_new_unknown_middle env now _ c hcat hrow req1 req2 _).2

/-- The empty per-user task state. -/
def emptyTasksState : TasksState := { rows := [], nextId := 0 }

/-- Witness for `sync_user_tasks_unknown_code` at the code `"GHOST"`,
absent from the (empty) catalog and from the (empty) row set. -/
theorem sync_user_tasks_unknown_code_witness :
    (sync_user_tasks emptyCatalogEnv 3 emptyTasksState
        ([] ++ "GHOST" :: [])).1 =
      (sync_user_tasks emptyCatalogEnv 3 emptyTasksState ([] ++ [])).1 ∧
    "GHOST" ∉ (sync_user_tasks emptyCatalogEnv 3 emptyTasksState
      ([] ++ "GHOST" :: [])).1.rows.map (fun t => t.task_code) ∧
    "GHOST" ∈ (sync_user_tasks emptyCatalogEnv 3 emptyTasksState
      ([] ++ "GHOST" :: [])).2 :=
  sync_user_tasks_unknown_code emptyCatalogEnv 3 emptyTasksState [] []
    "GHOST" rfl (by simp [emptyTasksState])

/-- A completed family-farmer-registration row, for concrete service
states. -/
def ffrDoneRow : UserTaskRow :=
  { rowId := 0, task_code := "HAS_FAMILY_FARMER_REGISTRATION", status := "done",
    blocking := true, requirement_id := some "dap_caf", created_at := 0, updated_at := 0 }

/-- A completed bank-account row. -/
def bankDoneRow : UserTaskRow :=
  { rowId := 1, task_code := "HAS_BANK_ACCOUNT", status := "done",
    blocking := true, requirement_id := some "bank_statement", created_at := 0, updated_at := 0 }

/-- A pending address-proof row. -/
def addrPendingRow : UserTaskRow :=
  { rowId := 2, task_code := "HAS_ADDRESS_PROOF", status := "pending",
    blocking := false, requirement_id := some "proof_address", created_at := 0, updated_at := 0 }

/-- A service state with a profile, no cache, and two of three tasks
completed. -/
def twoOfThreeDoneState : ServiceState :=
  { profile := some {}, answers := {},
    tasks := { rows := [ffrDoneRow, bankDoneRow, addrPendingRow], nextId := 3 },
    statusCache := none }

/-- C1 counterexample: the score returned by `get_or_calculate_status`
is not `round(completed/total*100)`.  With 2 of 3 tasks done the code
truncates `int((2/3)*100)` to 66, while rounding would give 67. -/
theorem get_or_calculate_status_score_truncates :
    (get_or_calculate_status emptyCatalogEnv 7 twoOfThreeDoneState).2.score = 66 ∧
    ((get_or_calculate_status emptyCatalogEnv 7 twoOfThreeDoneState).1.tasks.rows.filter
        (fun t => t.status = "done")).length = 2 ∧
    (get_or_calculate_status emptyCatalogEnv 7 twoOfThreeDoneState).1.tasks.rows.length = 3 ∧
    round ((2 : ℚ) / 3 * 100) = 67 := by
  refine ⟨by decide, by decide, by decide, ?_⟩
  rw [round_eq]
  norm_num

/-- C1 (amended): the score returned by `get_or_calculate_status` is
the task-completion progress truncated downwards — for a non-empty
task list `⌊completed/total*100⌋` (Python `int()` truncation, not
`round`), and 0 for an empty list — computed over the rows as they
stand after the call resynced them, and independent of the internal
diagnosis score: the cached diagnosis document (which stores that
score) has no influence on the returned score. -/
theorem get_or_calculate_status_score_progress (env : SyncEnv) (now : Nat)
    (st : ServiceState) :
    (get_or_calculate_status env now st).2.score =
      progress_score (get_or_calculate_status env now st).1.tasks.rows ∧
    ((get_or_calculate_status env now st).1.tasks.rows.length ≠ 0 →
      (get_or_calculate_status env now st).2.score =
        (⌊((((get_or_calculate_status env now st).1.tasks.rows.filter
              (fun t => t.status = "done")).length * 100 : ℕ) : ℚ) /
            ((get_or_calculate_status env now st).1.tasks.rows.length : ℚ)⌋₊ : Int)) ∧
    ((get_or_calculate_status env now st).1.tasks.rows.length = 0 →
      (get_or_calculate_status env now st).2.score = 0) ∧
    (∀ cache', (get_or_calculate_status env now
        { st with statusCache := cache' }).2.score =
      (get_or_calculate_status env now st).2.score) := by
  have hrows : (get_or_calculate_status env now st).1.tasks.rows =
      (regenerate_tasks env now st.profile st.tasks).rows := rfl
  have hscore : (get_or_calculate_status env now st).2.score =
      progress_score (regenerate_tasks env now st.profile st.tasks).rows := rfl
  refine ⟨rfl, ?_, ?_, fun _ => rfl⟩
  · intro h
    rw [hrows] at h
    rw [hscore, hrows]
    simp only [progress_score]
    rw [if_pos (Nat.pos_of_ne_zero h), Nat.floor_div_eq_div]
  · intro h
    rw [hrows] at h
    rw [hscore]
    simp only [progress_score]
    rw [h]
    simp

/-- Witness for `get_or_calculate_status_score_progress`: the
non-empty-list truncation formula evaluated on the concrete state with
2 of 3 tasks done. -/
theorem get_or_calculate_status_score_progress_witness :
    (get_or_calculate_status emptyCatalogEnv 7
        twoOfThreeDoneState).1.tasks.rows.length ≠ 0 ∧
    (get_or_calculate_status emptyCatalogEnv 7 twoOfThreeDoneState).2.score =
      (⌊((((get_or_calculate_status emptyCatalogEnv 7 twoOfThreeDoneState).1.tasks.rows.filter
            (fun t => t.status = "done")).length * 100 : ℕ) : ℚ) /
          ((get_or_calculate_status emptyCatalogEnv 7
            twoOfThreeDoneState).1.tasks.rows.length : ℚ)⌋₊ : Int) :=
  ⟨by decide, (get_or_calculate_status_score_progress emptyCatalogEnv 7
    twoOfThreeDoneState).2.1 (by decide)⟩

/-- C10: `update_task_status` validates the status first.  A status
outside `{"pending", "done", "skipped"}` yields the validation error
with the whole state untouched (no task row written, no profile flag
or onboarding answer modified, the cached status not deleted); a
status inside the set never yields that error. -/
theorem update_task_status_validation (env : SyncEnv) (now : Nat)
    (st : ServiceState) (task_code status : String) :
    (status ∉ VALID_TASK_STATUSES →
      update_task_status env now st task_code status =
        (st, Except.error ("Invalid status: " ++ status))) ∧
    (status ∈ VALID_TASK_STATUSES →
      ∃ res, (update_task_status env now st task_code status).2 =
        Except.ok res) := by
  constructor
  · intro h
    unfold update_task_status
    rw [if_pos h]
  · intro h
    unfold update_task_status
    rw [if_neg (fun hn => hn h)]
    exact ⟨_, rfl⟩

/-- Witness for `update_task_status_validation`: the invalid status
`"in_progress"` is rejected with the state unchanged, and the valid
status `"done"` is accepted. -/
theorem update_task_status_validation_witness :
    "in_progress" ∉ VALID_TASK_STATUSES ∧
    update_task_status emptyCatalogEnv 9 twoOfThreeDoneState
        "HAS_ADDRESS_PROOF" "in_progress" =
      (twoOfThreeDoneState, Except.error ("Invalid status: " ++ "in_progress")) ∧
    "done" ∈ VALID_TASK_STATUSES ∧
    ∃ res, (update_task_status emptyCatalogEnv 9 twoOfThreeDoneState
        "HAS_ADDRESS_PROOF" "done").2 = Except.ok res :=
  ⟨by decide,
    (update_task_status_validation emptyCatalogEnv 9 twoOfThreeDoneState
      "HAS_ADDRESS_PROOF" "in_progress").1 (by decide),
    by decide,
    (update_task_status_validation emptyCatalogEnv 9 twoOfThreeDoneState
      "HAS_ADDRESS_PROOF" "done").2 (by decide)⟩

/-! ### Shared lemmas about the chat dispatch -/

/-- The priority task, when it exists, is a pending task of the list. -/
theorem priority_task_of_pending (tasks : List TaskView) (t : TaskView)
    (h : priority_task_of tasks = some t) :
    t ∈ tasks ∧ t.status = "pending" := by
  simp only [priority_task_of] at h
  rcases hb : List.filter (fun t => t.blocking)
      (List.filter (fun t => decide (t.status = "pending")) tasks) with _ | ⟨b, bs⟩
  · rw [hb] at h
    rcases hp : List.filter (fun t => decide (t.status = "pending")) tasks
      with _ | ⟨p, ps⟩
    · rw [hp] at h
      cases h
    · rw [hp] at h
      cases h
      have hmem : t ∈ List.filter (fun t => decide (t.status = "pending")) tasks := by
        rw [hp]
        exact List.mem_cons_self _ _
      have := List.mem_filter.mp hmem
      exact ⟨this.1, by simpa using this.2⟩
  · rw [hb] at h
    cases h
    have hmem : t ∈ List.filter (fun t => t.blocking)
        (List.filter (fun t => decide (t.status = "pending")) tasks) := by
      rw [hb]
      exact List.mem_cons_self _ _
    have h1 := List.mem_filter.mp hmem
    have h2 := List.mem_filter.mp h1.1
    exact ⟨h2.1, by simpa using h2.2⟩

/-- A pending, blocking CPF user-task row. -/
def cpfPendingRow : UserTaskRow :=
  { rowId := 0, task_code := "HAS_CPF", status := "pending", blocking := true,
    requirement_id := some "has_cpf", created_at := 0, updated_at := 0 }

/-- A user without a producer profile document whose only task is the
pending CPF task. -/
def chatServiceC3 : ServiceState :=
  { profile := none, answers := {},
    tasks := { rows := [cpfPendingRow], nextId := 1 }, statusCache := none }

/-- An environment whose catalog knows only the CPF task. -/
def chatEnvC3 : SyncEnv :=
  { catalog := fun c => if c = "HAS_CPF" then some { code := "HAS_CPF", blocking := true } else none,
    reqIdFor := fun _ => none }

/-- State after the user asked what is missing: the chat explained the
CPF task and stored it as the current task. -/
def chatS1 : ChatSysState :=
  (chat_step chatEnvC3 1 (chatInit chatServiceC3) "o que falta").1

/-- State after the user then marked the CPF task done (e.g. by
tapping the suggested action). -/
def chatS2 : ChatSysState :=
  { chatS1 with
    service := (update_task_status chatEnvC3 2 chatS1.service "HAS_CPF" "done").1 }

/-- `chatS2` is reachable from a fresh conversation. -/
theorem chatS2_reachable :
    ChatReachable chatEnvC3 (chatInit chatServiceC3) chatS2 :=
  Relation.ReflTransGen.tail
    (Relation.ReflTransGen.single
      (ChatStep.message (chatInit chatServiceC3) 1 "o que falta" chatS1 rfl))
    (ChatStep.mark_task chatS1 2 "HAS_CPF" "done" chatS2 rfl)

/-- C3 counterexample: it is NOT the case that every `mark_task_done`
suggestion emitted from a reachable conversation state targets a task
that is pending at that moment.  In `chatS2` the conversation is still
`EXPLAINING_TASK` on `"HAS_CPF"`, the task is already `"done"`, and the
message `"sim"` makes `_handle_task_confirmation` re-emit
`mark_task_done` for it without re-checking its status. -/
theorem chat_mark_done_claim_false :
    ¬ ∀ (s : ChatSysState), ChatReachable chatEnvC3 (chatInit chatServiceC3) s →
      ∀ (now : Nat) (text : String) (a : SuggestedAction),
        a ∈ (chat_step chatEnvC3 now s text).2.suggested_actions →
        a.type = "mark_task_done" →
        ∃ t ∈ s.service.tasks.rows, t.task_code = a.task_code ∧
          t.status = "pending" := by
  intro hclaim
  have h := hclaim chatS2 chatS2_reachable 3 "sim"
    { type := "mark_task_done", task_code := "HAS_CPF" } (by decide) rfl
  revert h
  decide

/-- C3 (amended): a `mark_task_done` suggestion emitted by the chat
dispatch either comes from the explain-task path — and then it targets
a task that is pending in the task list the call just resynced — or it
comes from the confirmation path, which re-emits the conversation's
stored `current_task_code` under a `confirm_task` intent without
re-checking that the task is still pending. -/
theorem chat_mark_done_sources (env : SyncEnv) (now : Nat) (s : ChatSysState)
    (user_text : String) (a : SuggestedAction)
    (ha : a ∈ (chat_step env now s user_text).2.suggested_actions)
    (hmark : a.type = "mark_task_done") :
    (∃ t ∈ (get_tasks env now s.service).2, t.task_code = a.task_code ∧
      t.status = "pending") ∨
    (s.current_task_code = some a.task_code ∧
      detect_intent (asciiLower user_text) = "confirm_task") := by
  simp only [chat_step] at ha
  split_ifs at ha with h1 h2 h3
  · rcases hp : priority_task_of (get_tasks env now s.service).2 with _ | t
    · rw [hp] at ha
      simp [explain_task] at ha
    · rw [hp] at ha
      simp only [explain_task] at ha
      have haeq := List.mem_singleton.mp ha
      subst haeq
      left
      obtain ⟨hmem, hpend⟩ := priority_task_of_pending _ _ hp
      exact ⟨t, hmem, rfl, hpend⟩
  · right
    obtain ⟨hint, htr⟩ := h2
    cases hcur : s.current_task_code with
    | none =>
      rw [hcur] at htr
      cases htr
    | some c =>
      rw [hcur] at ha htr
      simp only [handle_task_confirmation] at ha
      by_cases hc : CONFIRMATIONS.any
          (fun conf => strContains (asciiLower user_text) conf) = true
      · rw [if_pos hc] at ha
        have haeq := List.mem_singleton.mp ha
        subst haeq
        exact ⟨by simp, hint⟩
      · rw [if_neg hc] at ha
        simp at ha
  · simp at ha
  · simp at ha

/-- Witness for `chat_mark_done_sources` at the confirmation scenario
of `chatS2`: the emitted action falls under the second disjunct. -/
theorem chat_mark_done_sources_witness :
    (∃ t ∈ (get_tasks chatEnvC3 3 chatS2.service).2,
      t.task_code = SuggestedAction.task_code
        { type := "mark_task_done", task_code := "HAS_CPF" } ∧
      t.status = "pending") ∨
    (chatS2.current_task_code = some (SuggestedAction.task_code
        { type := "mark_task_done", task_code := "HAS_CPF" }) ∧
      detect_intent (asciiLower "sim") = "confirm_task") :=
  chat_mark_done_sources chatEnvC3 3 chatS2 "sim"
    { type := "mark_task_done", task_code := "HAS_CPF" } (by decide) rfl

/-- C8: for every producer profile whose resolved flags have CPF,
family-farmer registration (directly or via the `has_dap_caf`
fallback), bank account and address proof all true and
`wants_to_sell_to_school` false, `compute_required_tasks` returns the
empty list. -/
theorem compute_required_tasks_complete_profile (p : ProducerProfileDoc)
    (hcpf : p.has_cpf.getD true = true)
    (hffr : p.has_family_farmer_registration.getD false = true ∨
      p.has_dap_caf.getD false = true)
    (hbank : p.has_bank_account.getD false = true)
    (haddr : p.has_address_proof.getD false = true)
    (hschool : p.wants_to_sell_to_school.getD false = false) :
    compute_required_tasks p = [] := by
  unfold compute_required_tasks
  rcases hffr with hffr | hffr <;>
    simp [hcpf, hffr, hbank, haddr, hschool]

/-- Witness for `compute_required_tasks_complete_profile` at a profile
with every flag present and favourable. -/
theorem compute_required_tasks_complete_profile_witness :
    compute_required_tasks
      { has_cpf := some true, has_family_farmer_registration := some true,
        has_bank_account := some true, has_address_proof := some true,
        wants_to_sell_to_school := some false } = [] :=
  compute_required_tasks_complete_profile
    { has_cpf := some true, has_family_farmer_registration := some true,
      has_bank_account := some true, has_address_proof := some true,
      wants_to_sell_to_school := some false }
    (by decide) (Or.inl (by decide)) (by decide) (by decide) (by decide)

end DevsImpacto
